import Mathlib

/-!
Shallow embedding of the filtering-and-aggregation pipeline of
`imdb_movie_toolkit.py` (with CLI helpers in `imdb_utils.py`).

Modelling conventions:
* A pandas `DataFrame` is a `List` of records in row order.
* Numeric columns that the program runs through `pd.to_numeric(..., errors="coerce")`
  (`startYear`, `runtimeMinutes`) are modelled as `Option Int`: `none` stands for a
  missing field (the `\N` sentinel) or a non-numeric string, both of which coerce to
  NaN and behave identically everywhere downstream; `some n` stands for a value whose
  coercion succeeds.  The `genres` column may be missing, hence `Option String`.
* `averageRating` is a rational number (`ℚ`); the ratings table of the dataset always
  carries a numeric rating, and all the program does with it is compare (`>=`) and
  print it, so an exact rational faithfully models the float column for the values
  that occur (decimal literals read from the TSV).
* Boolean-mask filtering (`df[mask]`) keeps row order, as does pandas, so it is
  `List.filter`.
-/

/-- One row of the `title.basics` table (the columns the program reads). -/
structure TitleRow where
  tconst : String
  titleType : String
  primaryTitle : String
  startYear : Option Int
  runtimeMinutes : Option Int
  genres : Option String
deriving DecidableEq, Repr

/-- One row of the `title.ratings` table. -/
structure RatingRow where
  tconst : String
  averageRating : ℚ
  numVotes : Int
deriving DecidableEq, Repr

/-- A joined row: the inner merge of a `TitleRow` with a `RatingRow` on `tconst`
(line 102 of `imdb_movie_toolkit.py`). -/
structure MovieRow where
  tconst : String
  titleType : String
  primaryTitle : String
  startYear : Option Int
  runtimeMinutes : Option Int
  genres : Option String
  averageRating : ℚ
  numVotes : Int
deriving DecidableEq, Repr

/-- Model of `basics.merge(ratings, on="tconst", how="inner")` (line 102).  For an inner
merge pandas keeps the order of the left frame's keys, and for one left row with
several matching right rows the right rows appear in their own order; that is
exactly `flatMap` over the left rows of the matching right rows. -/
def mergeOnTconst (basics : List TitleRow) (ratings : List RatingRow) : List MovieRow :=
  basics.flatMap (fun b =>
    (ratings.filter (fun r => r.tconst == b.tconst)).map (fun r =>
      { tconst := b.tconst
        titleType := b.titleType
        primaryTitle := b.primaryTitle
        startYear := b.startYear
        runtimeMinutes := b.runtimeMinutes
        genres := b.genres
        averageRating := r.averageRating
        numVotes := r.numVotes }))

/-- Case-insensitive substring containment on the character lists. -/
def charsContains (needle : List Char) : List Char → Bool
  | [] => needle.isEmpty
  | c :: t => needle.isPrefixOf (c :: t) || charsContains needle t

/-- Whether `hay` contains `pat` as a case-insensitive substring.  This is the meaning of
`Series.str.contains(re.escape(pat), case=False)` for a single escaped fragment:
because the fragment is regex-escaped (`re.escape`, line 35), the regex it yields
matches exactly the literal text `pat`, so the whole match is literal substring
search under case folding (`re.IGNORECASE`; modelled by `Char.toLower`, which
agrees with Python on the ASCII genre alphabet the program handles). -/
def containsCI (hay pat : String) : Bool :=
  charsContains pat.toLower.toList hay.toLower.toList

/-- Model of `build_genre_pattern` (lines 34-36), which builds `"|".join(re.escape(g) for g in genres)`.
Since every branch of the alternation is escaped, the resulting regex denotes the
set of strings containing one of the literal fragments; the model therefore keeps
the list of literal fragments as the pattern. -/
def build_genre_pattern (genres : List String) : List String :=
  genres

/-- Matching a string against the alternation pattern: the empty pattern (an empty
regex) matches every string, and otherwise some literal branch must occur as a
case-insensitive substring. -/
def patternMatches (frags : List String) (s : String) : Bool :=
  match frags with
  | [] => true
  | _ => frags.any (fun g => containsCI s g)

/-- The column write `df["genres"] = df["genres"].fillna("")` (line 44) on one row. -/
def fillGenres (r : MovieRow) : MovieRow :=
  { r with genres := some (r.genres.getD "") }

/-- Model of `apply_genre_filters` (lines 39-51).  `fillna("")` first replaces a missing
genre string by `""` in the working frame; then, whenever the corresponding list
is non-empty (Python truthiness of a list), the include mask keeps rows whose
genre string matches the include pattern and the exclude mask drops rows whose
genre string matches the exclude pattern (`na=False` is irrelevant after the
`fillna`). -/
def apply_genre_filters (df : List MovieRow) (include_genres exclude_genres : List String) :
    List MovieRow :=
  let df := df.map fillGenres
  let df :=
    if include_genres ≠ [] then
      df.filter (fun r => patternMatches (build_genre_pattern include_genres) (r.genres.getD ""))
    else df
  if exclude_genres ≠ [] then
    df.filter (fun r => !patternMatches (build_genre_pattern exclude_genres) (r.genres.getD ""))
  else df

/-- Model of `apply_runtime_filters` (lines 54-66).  With no bound configured the frame is
returned untouched (line 59-60) and the runtime column is not even coerced.
Otherwise the column is coerced (already reflected in the `Option Int` field) and
each configured bound keeps only rows satisfying it; a NaN runtime compares
`False` against any bound in pandas, so a `none` runtime fails every configured
bound.  The function is total: malformed runtimes never raise. -/
def apply_runtime_filters (df : List MovieRow) ( min_runtime max_runtime : Option Int) :
    List MovieRow :=
  match min_runtime, max_runtime with
  | none, none => df
  | _, _ =>
    let df :=
      match min_runtime with
      | none => df
      | some m =>
        df.filter (fun r =>
          match r.runtimeMinutes with
          | none => false
          | some rt => decide (m ≤ rt))
    match max_runtime with
    | none => df
    | some M =>
      df.filter (fun r =>
        match r.runtimeMinutes with
        | none => false
        | some rt => decide (rt ≤ M))

/-- Sort key of the `sort_by == "votes"` branch (lines 70-76): descending
`numVotes`, then descending `averageRating`.  `votesOrder a b` says `a` may be
placed before `b`. -/
def votesOrder (a b : MovieRow) : Prop :=
  b.numVotes < a.numVotes ∨ (a.numVotes = b.numVotes ∧ b.averageRating ≤ a.averageRating)

instance : DecidableRel votesOrder := fun _ _ =>
  inferInstanceAs (Decidable (_ ∨ _ ∧ _))

/-- Sort key of the `sort_by == "title"` branch (lines 77-79): ascending
`primaryTitle` (case-sensitive, as stored). -/
def titleOrder (a b : MovieRow) : Prop :=
  a.primaryTitle ≤ b.primaryTitle

instance : DecidableRel titleOrder := fun _ _ =>
  inferInstanceAs (Decidable (_ ≤ _))

/-- Sort key of the default branch (lines 80-85, any other `sort_by` value):
descending `averageRating`, then descending `numVotes`. -/
def ratingOrder (a b : MovieRow) : Prop :=
  b.averageRating < a.averageRating ∨ (a.averageRating = b.averageRating ∧ b.numVotes ≤ a.numVotes)

instance : DecidableRel ratingOrder := fun _ _ =>
  inferInstanceAs (Decidable (_ ∨ _ ∧ _))

/-- Model of `sort_titles` (lines 69-85).  Each branch is `df.sort_values(...)` under the
declared keys.  The two multi-key branches (votes, rating/default) go through
pandas' stable multi-key lexsort, which `List.insertionSort` with a total
preorder models exactly (ties keep their original order).  The single-key title
branch runs with pandas' default `kind="quicksort"`, whose order on equal titles
is not specified; the model places ties in their original order, a choice that
only matters for the tie order of duplicate titles and that no theorem below
about this branch depends on. -/
def sort_titles (df : List MovieRow) (sort_by : String) : List MovieRow :=
  if sort_by = "votes" then List.insertionSort votesOrder df
  else if sort_by = "title" then List.insertionSort titleOrder df
  else List.insertionSort ratingOrder df

/-- Model of `df.head(n)`, which is `df.iloc[:n]` with Python slice semantics: for `0 ≤ n` the
first `n` rows, for `n < 0` all rows except the last `|n|`. -/
def pdHead (n : Int) (xs : List MovieRow) : List MovieRow :=
  if 0 ≤ n then xs.take n.toNat else xs.take (xs.length - n.natAbs)

/-- Model of `filter_one_year` (lines 88-120), the Year Filter Engine: inner join, title
type mask, coerced start-year mask (a NaN start year never equals the target
year), genre filters, vote/rating quality mask, runtime filters, sort, and the
per-year cap.  `if limit_per_year:` is Python truthiness: `None` and `0` skip the
cap, any other value `n` returns `df.head(n)`. -/
def filter_one_year
    (basics : List TitleRow) (ratings : List RatingRow)
    (year : Int) ( min_votes : Int) ( min_rating : ℚ) (title_type : String)
    (include_genres exclude_genres : List String)
    ( min_runtime max_runtime : Option Int)
    (sort_by : String) (limit_per_year : Option Int) : List MovieRow :=
  let df := mergeOnTconst basics ratings
  let df := df.filter (fun r => r.titleType == title_type)
  let df := df.filter (fun r => r.startYear == some year)
  let df := apply_genre_filters df include_genres exclude_genres
  let df := df.filter (fun r => decide ( min_votes ≤ r.numVotes) && decide ( min_rating ≤ r.averageRating))
  let df := apply_runtime_filters df min_runtime max_runtime
  let df := sort_titles df sort_by
  match limit_per_year with
  | none => df
  | some n => if n = 0 then df else pdHead n df

/-- Decimal digits of the proper fraction `r / den`, most significant first, with
enough fuel for Python's at most 17 significant repr digits. -/
def fracDigits (den : Nat) : Nat → Nat → List Nat
  | 0, _ => []
  | _ + 1, 0 => []
  | fuel + 1, r => r * 10 / den :: fracDigits den fuel (r * 10 % den)

/-- The text an f-string produces for the float rating column: Python's `repr` of
a float prints the shortest decimal that round-trips, which for a float parsed
from a short decimal literal (the one-decimal IMDb ratings) is that literal
itself, always with at least one fractional digit (`8.0`, `7.5`).  The model
prints the exact decimal expansion of the stored rational, which coincides with
that output on every rating the pipeline carries. -/
def pyFloatRepr (q : ℚ) : String :=
  let sign := if q < 0 then "-" else ""
  let n := q.num.natAbs
  let d := q.den
  let frac := if n % d = 0 then [0] else fracDigits d 17 (n % d)
  sign ++ toString (n / d) ++ "." ++ String.join (frac.map (fun k => toString k))

/-- The text an f-string produces for the `genres` cell: a missing value is a
float NaN, which prints as `nan`; otherwise the stored string itself. -/
def pyOptStr (og : Option String) : String :=
  match og with
  | none => "nan"
  | some s => s

/-- Model of `format_movie_line` (lines 123-128). -/
def format_movie_line (r : MovieRow) : String :=
  "  " ++ r.primaryTitle ++
    " (rating=" ++ pyFloatRepr r.averageRating ++
    ", votes=" ++ toString r.numVotes ++
    ", genres=" ++ pyOptStr r.genres ++
    ", id=" ++ r.tconst ++ ")"

/-- Model of `build_year_section` (lines 391-397): the year header, then either the single
`(no titles)` line or one formatted line per row, and a trailing blank line. -/
def build_year_section (year : Int) (df : List MovieRow) : List String :=
  let lines := [toString year]
  if df.isEmpty then lines ++ ["  (no titles)", ""]
  else (lines ++ df.map format_movie_line) ++ [""]

/-- Model of `build_output` (lines 400-432): one `build_year_section` per requested year, in
the order of the `years` iterable, concatenated. -/
def build_output
    (basics : List TitleRow) (ratings : List RatingRow) (years : List Int)
    ( min_votes : Int) ( min_rating : ℚ) (title_type : String)
    (include_genres exclude_genres : List String)
    ( min_runtime max_runtime : Option Int)
    (sort_by : String) (limit_per_year : Option Int) : List String :=
  years.flatMap (fun year =>
    build_year_section year
      (filter_one_year basics ratings year min_votes min_rating title_type
        include_genres exclude_genres min_runtime max_runtime sort_by limit_per_year))

/-- Python `range(s, e + 1)` as a list of `Int`. -/
def rangeInt (s e : Int) : List Int :=
  (List.range (e + 1 - s).toNat).map (fun i => s + Int.ofNat i)

/-- Model of `resolve_years` (lines 596-608) with `dt.date.today().year` passed in as
`todayYear`.  `if last_n_years:` is Python truthiness, so `None` and `0` both
skip the override block; inside it, a value `< 1` raises, and otherwise the
range is recomputed from the current year.  Finally an inverted range raises.
A raised `ValueError` is the `Except.error` case, carrying the message. -/
def resolve_years (start_year end_year : Int) (last_n_years : Option Int)
    (todayYear : Int) : Except String (List Int) :=
  let step : Except String (Int × Int) :=
    match last_n_years with
    | none => .ok (start_year, end_year)
    | some n =>
      if n = 0 then .ok (start_year, end_year)
      else if n < 1 then .error "--last-n-years must be >= 1"
      else .ok (todayYear - n + 1, todayYear)
  match step with
  | .error e => .error e
  | .ok (s, e) => if e < s then .error "start-year must be <= end-year" else .ok (rangeInt s e)

/-- Observable phases of a `main` run (lines 626-656, default text format),
in execution order. -/
inductive Event where
  | loadData
  | configError (msg : String)
  | processYear (y : Int)
  | writeOutput
deriving DecidableEq, Repr

/-- The phase trace of `main` (lines 626-656) on the text path: `load_data` runs
first (line 629); only then is `resolve_years` called (line 631), whose
`ValueError` becomes a fatal `SystemExit` (lines 632-633); otherwise
`build_output` processes each resolved year in order (lines 415-431) and the
result is written (line 654). -/
def main_trace (start_year end_year : Int) (last_n_years : Option Int)
    (todayYear : Int) : List Event :=
  Event.loadData ::
    match resolve_years start_year end_year last_n_years todayYear with
    | .error msg => [Event.configError msg]
    | .ok years => years.map Event.processYear ++ [Event.writeOutput]

/-- The two source tables, as the mutable objects `main` loads once and then
hands to every `filter_one_year` call. -/
structure Tables where
  basicsT : List TitleRow
  ratingsT : List RatingRow
deriving DecidableEq, Repr

/-- Model of `filter_one_year` as a transformer of the table store, making every write
target explicit.  Line 102 reads both input tables and allocates a fresh frame
for the merge result; each following statement rebinds `df` to a new frame, a
`.copy()` of one (lines 104, 114, 119), or mutates the frame bound to `df` in
place (the `fillna` column write at line 44 and the `inplace=True` sorts at
lines 71-84 — both reached only with the merge-derived working frame as
argument).  No statement of the function writes to either input table, so the
store comes back exactly as it went in. -/
def filter_one_year_exec (st : Tables)
    (year : Int) ( min_votes : Int) ( min_rating : ℚ) (title_type : String)
    (include_genres exclude_genres : List String)
    ( min_runtime max_runtime : Option Int)
    (sort_by : String) (limit_per_year : Option Int) : List MovieRow × Tables :=
  let df := mergeOnTconst st.basicsT st.ratingsT
  let df := df.filter (fun r => r.titleType == title_type)
  let df := df.filter (fun r => r.startYear == some year)
  let df := apply_genre_filters df include_genres exclude_genres
  let df := df.filter (fun r => decide ( min_votes ≤ r.numVotes) && decide ( min_rating ≤ r.averageRating))
  let df := apply_runtime_filters df min_runtime max_runtime
  let df := sort_titles df sort_by
  let df :=
    match limit_per_year with
    | none => df
    | some n => if n = 0 then df else pdHead n df
  (df, st)

/-! ### Concrete sample data (used by closed witness and counterexample theorems) -/

/-- A small basics table: a movie with genres, a short, and a second movie. -/
def sampleBasics : List TitleRow :=
  [⟨"tt1", "movie", "Alpha", some 2010, some 90, some "Drama,Comedy"⟩,
   ⟨"tt2", "short", "Beta", some 2010, none, some "Drama"⟩,
   ⟨"tt3", "movie", "Gamma", some 2010, some 100, some "Drama"⟩]

/-- Ratings for the three sample titles. -/
def sampleRatings : List RatingRow :=
  [⟨"tt1", mkRat 15 2, 1000⟩, ⟨"tt2", 9, 50000⟩, ⟨"tt3", 7, 2000⟩]

/-- The joined row for `tt1`. -/
def sampleRow : MovieRow :=
  ⟨"tt1", "movie", "Alpha", some 2010, some 90, some "Drama,Comedy", mkRat 15 2, 1000⟩

/-- A joined row whose runtime is missing (or failed numeric coercion). -/
def rowNoRuntime : MovieRow :=
  ⟨"tt9", "movie", "Delta", some 2011, none, some "Drama", 7, 800⟩

/-! ### Shared lemmas about the pipeline stages -/

theorem fillGenres_titleType (r : MovieRow) : (fillGenres r).titleType = r.titleType := rfl

theorem fillGenres_startYear (r : MovieRow) : (fillGenres r).startYear = r.startYear := rfl

theorem fillGenres_genres_getD (r : MovieRow) :
    (fillGenres r).genres.getD "" = r.genres.getD "" := rfl

theorem mem_pdHead {n : Int} {l : List MovieRow} {r : MovieRow} (h : r ∈ pdHead n l) :
    r ∈ l := by
  unfold pdHead at h
  split_ifs at h <;> exact List.mem_of_mem_take h

theorem mem_sort_titles {df : List MovieRow} {sb : String} {r : MovieRow} :
    r ∈ sort_titles df sb ↔ r ∈ df := by
  unfold sort_titles
  split_ifs <;> exact List.mem_insertionSort _

theorem mem_apply_runtime_filters {df : List MovieRow} {m M : Option Int} {r : MovieRow}
    (h : r ∈ apply_runtime_filters df m M) :
    r ∈ df ∧
      (∀ mv, m = some mv → ∃ rt, r.runtimeMinutes = some rt ∧ mv ≤ rt) ∧
      (∀ Mv, M = some Mv → ∃ rt, r.runtimeMinutes = some rt ∧ rt ≤ Mv) := by
  rcases m with _ | mv <;> rcases M with _ | Mv
  · refine ⟨h, ?_, ?_⟩
    · exact fun _ hc => nomatch hc
    · exact fun _ hc => nomatch hc
  · have h2 : r ∈ df.filter (fun r =>
        match r.runtimeMinutes with
        | none => false
        | some rt => decide (rt ≤ Mv)) := h
    obtain ⟨hmem, hp⟩ := List.mem_filter.1 h2
    refine ⟨hmem, ?_, ?_⟩
    · exact fun _ hc => nomatch hc
    · intro Mv2 hc
      cases hc
      cases hrt : r.runtimeMinutes with
      | none => rw [hrt] at hp; cases hp
      | some rt => rw [hrt] at hp; exact ⟨rt, rfl, of_decide_eq_true hp⟩
  · have h2 : r ∈ df.filter (fun r =>
        match r.runtimeMinutes with
        | none => false
        | some rt => decide (mv ≤ rt)) := h
    obtain ⟨hmem, hp⟩ := List.mem_filter.1 h2
    refine ⟨hmem, ?_, ?_⟩
    · intro mv2 hc
      cases hc
      cases hrt : r.runtimeMinutes with
      | none => rw [hrt] at hp; cases hp
      | some rt => rw [hrt] at hp; exact ⟨rt, rfl, of_decide_eq_true hp⟩
    · exact fun _ hc => nomatch hc
  · have h2 : r ∈ (df.filter (fun r =>
        match r.runtimeMinutes with
        | none => false
        | some rt => decide (mv ≤ rt))).filter (fun r =>
        match r.runtimeMinutes with
        | none => false
        | some rt => decide (rt ≤ Mv)) := h
    obtain ⟨hmem1, hpMax⟩ := List.mem_filter.1 h2
    obtain ⟨hmem, hpMin⟩ := List.mem_filter.1 hmem1
    refine ⟨hmem, ?_, ?_⟩
    · intro mv2 hc
      cases hc
      cases hrt : r.runtimeMinutes with
      | none => rw [hrt] at hpMin; cases hpMin
      | some rt => rw [hrt] at hpMin; exact ⟨rt, rfl, of_decide_eq_true hpMin⟩
    · intro Mv2 hc
      cases hc
      cases hrt : r.runtimeMinutes with
      | none => rw [hrt] at hpMax; cases hpMax
      | some rt => rw [hrt] at hpMax; exact ⟨rt, rfl, of_decide_eq_true hpMax⟩

theorem mem_apply_genre_filters {df : List MovieRow} {inc exc : List String} {r : MovieRow}
    (h : r ∈ apply_genre_filters df inc exc) :
    ∃ r₀, r₀ ∈ df ∧ r = fillGenres r₀ := by
  simp only [apply_genre_filters] at h
  split_ifs at h <;>
    [ (obtain ⟨h1, -⟩ := List.mem_filter.1 h
       obtain ⟨h2, -⟩ := List.mem_filter.1 h1
       obtain ⟨r₀, hr₀, hEq⟩ := List.mem_map.1 h2);
      (obtain ⟨h1, -⟩ := List.mem_filter.1 h
       obtain ⟨r₀, hr₀, hEq⟩ := List.mem_map.1 h1);
      (obtain ⟨h1, -⟩ := List.mem_filter.1 h
       obtain ⟨r₀, hr₀, hEq⟩ := List.mem_map.1 h1);
      (obtain ⟨r₀, hr₀, hEq⟩ := List.mem_map.1 h)] <;>
    exact ⟨r₀, hr₀, hEq.symm⟩

theorem patternMatches_eq_true_iff (frags : List String) (s : String) :
    patternMatches frags s = true ↔
      (frags = [] ∨ ∃ g ∈ frags, containsCI s g = true) := by
  cases frags with
  | nil => simp [patternMatches]
  | cons a t => simp [patternMatches, List.any_eq_true]

theorem patternMatches_eq_false_iff (frags : List String) (s : String) :
    patternMatches frags s = false ↔
      (frags ≠ [] ∧ ∀ g ∈ frags, containsCI s g = false) := by
  cases frags with
  | nil => simp [patternMatches]
  | cons a t =>
    simp only [patternMatches, ne_eq, reduceCtorEq, not_false_iff, true_and]
    rw [← Bool.not_eq_true, List.any_eq_true]
    push_neg
    simp [Bool.not_eq_true]

theorem filter_one_year_some_eq
    (basics : List TitleRow) (ratings : List RatingRow)
    (year mv : Int) (mr : ℚ) (tt : String) (inc exc : List String)
    (mrt Mrt : Option Int) (sb : String) (n : Int) :
    filter_one_year basics ratings year mv mr tt inc exc mrt Mrt sb (some n) =
      if n = 0 then filter_one_year basics ratings year mv mr tt inc exc mrt Mrt sb none
      else pdHead n (filter_one_year basics ratings year mv mr tt inc exc mrt Mrt sb none) :=
  rfl

theorem mem_filter_one_year_uncapped
    {basics : List TitleRow} {ratings : List RatingRow}
    {year mv : Int} {mr : ℚ} {tt : String} {inc exc : List String}
    {mrt Mrt : Option Int} {sb : String} {lim : Option Int} {r : MovieRow}
    (h : r ∈ filter_one_year basics ratings year mv mr tt inc exc mrt Mrt sb lim) :
    r ∈ filter_one_year basics ratings year mv mr tt inc exc mrt Mrt sb none := by
  rcases lim with _ | n
  · exact h
  · rw [filter_one_year_some_eq] at h
    rcases eq_or_ne n 0 with hn | hn
    · rw [if_pos hn] at h; exact h
    · rw [if_neg hn] at h; exact mem_pdHead h

/-! ### Claim theorems -/

/-- Claim C1: for every configuration and every pair of input tables, every row in
the Year Section returned by `filter_one_year` for target year `year` satisfies
all configured filters: its title type equals the configured type (case-sensitive),
its coerced start year equals `year`, its vote count is at least the configured
minimum and its rating at least the configured minimum (both inclusive), and every
configured runtime bound holds of its coerced runtime. -/
theorem filter_one_year_rows_satisfy_filters
    (basics : List TitleRow) (ratings : List RatingRow)
    (year mv : Int) (mr : ℚ) (tt : String) (inc exc : List String)
    (mrt Mrt : Option Int) (sb : String) (lim : Option Int) (r : MovieRow)
    (h : r ∈ filter_one_year basics ratings year mv mr tt inc exc mrt Mrt sb lim) :
    r.titleType = tt ∧ r.startYear = some year ∧
      mv ≤ r.numVotes ∧ mr ≤ r.averageRating ∧
      (∀ m, mrt = some m → ∃ rt, r.runtimeMinutes = some rt ∧ m ≤ rt) ∧
      (∀ M, Mrt = some M → ∃ rt, r.runtimeMinutes = some rt ∧ rt ≤ M) := by
  have h0 := mem_filter_one_year_uncapped h
  have h1 := mem_sort_titles.1 h0
  obtain ⟨h2, hmin, hmax⟩ := mem_apply_runtime_filters h1
  obtain ⟨h3, hq⟩ := List.mem_filter.1 h2
  obtain ⟨r₀, hr₀, rfl⟩ := mem_apply_genre_filters h3
  obtain ⟨h4, hy⟩ := List.mem_filter.1 hr₀
  obtain ⟨-, htt⟩ := List.mem_filter.1 h4
  have hq2 : (decide (mv ≤ (fillGenres r₀).numVotes) &&
      decide (mr ≤ (fillGenres r₀).averageRating)) = true := hq
  rw [Bool.and_eq_true] at hq2
  obtain ⟨hv, hr⟩ := hq2
  refine ⟨?_, ?_, of_decide_eq_true hv, of_decide_eq_true hr, hmin, hmax⟩
  · rw [fillGenres_titleType]; exact eq_of_beq htt
  · rw [fillGenres_startYear]; exact eq_of_beq hy

/-- Witness for C1 on concrete data: the joined row for `tt1` is in the 2010 Year
Section under the default configuration, and the filter guarantees hold of it. -/
theorem filter_one_year_rows_satisfy_filters_witness :
    sampleRow ∈ filter_one_year sampleBasics sampleRatings 2010 500 (mkRat 13 2) "movie"
        [] [] none none "rating" none ∧
      (sampleRow.titleType = "movie" ∧ sampleRow.startYear = some 2010 ∧
        500 ≤ sampleRow.numVotes ∧ mkRat 13 2 ≤ sampleRow.averageRating ∧
        (∀ m, (none : Option Int) = some m →
          ∃ rt, sampleRow.runtimeMinutes = some rt ∧ m ≤ rt) ∧
        (∀ M, (none : Option Int) = some M →
          ∃ rt, sampleRow.runtimeMinutes = some rt ∧ rt ≤ M)) :=
  ⟨by decide,
    filter_one_year_rows_satisfy_filters sampleBasics sampleRatings 2010 500 (mkRat 13 2)
      "movie" [] [] none none "rating" none sampleRow (by decide)⟩

/-- Claim C2: with a positive per-year cap `n`, the Year Section is exactly the
first `n` rows of the sequence the same call returns with no cap configured, and
in particular has at most `n` rows. -/
theorem filter_one_year_cap_takes_first_rows
    (basics : List TitleRow) (ratings : List RatingRow)
    (year mv : Int) (mr : ℚ) (tt : String) (inc exc : List String)
    (mrt Mrt : Option Int) (sb : String) (n : Int) (h : 0 < n) :
    filter_one_year basics ratings year mv mr tt inc exc mrt Mrt sb (some n) =
        (filter_one_year basics ratings year mv mr tt inc exc mrt Mrt sb none).take n.toNat ∧
      (filter_one_year basics ratings year mv mr tt inc exc mrt Mrt sb (some n)).length ≤
        n.toNat := by
  have hn : n ≠ 0 := by omega
  rw [filter_one_year_some_eq, if_neg hn]
  unfold pdHead
  rw [if_pos (le_of_lt h)]
  exact ⟨rfl, List.length_take_le _ _⟩

/-- Witness for C2 on concrete data: capping the two-row 2010 Year Section at one
row yields exactly its first row. -/
theorem filter_one_year_cap_takes_first_rows_witness :
    (0 : Int) < 1 ∧
      (filter_one_year sampleBasics sampleRatings 2010 500 (mkRat 13 2) "movie"
          [] [] none none "rating" (some 1) =
        (filter_one_year sampleBasics sampleRatings 2010 500 (mkRat 13 2) "movie"
          [] [] none none "rating" none).take (1 : Int).toNat ∧
      (filter_one_year sampleBasics sampleRatings 2010 500 (mkRat 13 2) "movie"
          [] [] none none "rating" (some 1)).length ≤ (1 : Int).toNat) :=
  ⟨by decide,
    filter_one_year_cap_takes_first_rows sampleBasics sampleRatings 2010 500 (mkRat 13 2)
      "movie" [] [] none none "rating" 1 (by decide)⟩

/-- Claim C4 (code evaluated at the failing input): `resolve_years` with
`last_n_years = 0` raises no error and quietly falls back to the explicit
start/end range, because Python's `if last_n_years:` treats `0` as unset; a
negative value does raise the configuration error, as the claim describes. -/
theorem resolve_years_zero_bypasses_validation :
    resolve_years 2000 2025 (some 0) 2026 = Except.ok (rangeInt 2000 2025) ∧
      resolve_years 2000 2025 (some (-1)) 2026 =
        Except.error "--last-n-years must be >= 1" :=
  ⟨rfl, rfl⟩

/-- Claim C5, as amended: with an inverted explicit year range the run fails with
the configuration error before any per-year computation — the whole trace is the
data load followed immediately by the error, with no per-year event — but the
failure comes after data loading, not before it. -/
theorem main_trace_fails_after_load_before_years (s e today : Int) (h : e < s) :
    main_trace s e none today =
      [Event.loadData, Event.configError "start-year must be <= end-year"] := by
  unfold main_trace resolve_years
  simp [h]

/-- Witness for the amended C5 at a concrete inverted range. -/
theorem main_trace_fails_after_load_before_years_witness :
    (2019 : Int) < 2021 ∧
      main_trace 2021 2019 none 2026 =
        [Event.loadData, Event.configError "start-year must be <= end-year"] :=
  ⟨by decide, main_trace_fails_after_load_before_years 2021 2019 2026 (by decide)⟩

/-- Counterexample to C5 as stated: on the concrete inverted range 2020..2010 the
trace of `main` begins with the data-load event and only then reaches the
configuration error, so the failure does not occur prior to data loading. -/
theorem main_trace_loads_before_config_error :
    main_trace 2020 2010 none 2026 =
        [Event.loadData, Event.configError "start-year must be <= end-year"] ∧
      (main_trace 2020 2010 none 2026).head? = some Event.loadData :=
  ⟨rfl, rfl⟩

/-- Claim C6: a row whose runtime is missing or non-numeric (coerces to NaN) is
excluded by `apply_runtime_filters` whenever a minimum or maximum runtime is
configured, and with neither bound configured the frame is returned unchanged;
the function is total, so such rows are filtered, never an error. -/
theorem apply_runtime_filters_missing_runtime
    (df : List MovieRow) (m M : Option Int) (r : MovieRow)
    (hr : r.runtimeMinutes = none) :
    apply_runtime_filters df none none = df ∧
      ((m ≠ none ∨ M ≠ none) → r ∉ apply_runtime_filters df m M) := by
  refine ⟨rfl, fun hc hmem => ?_⟩
  obtain ⟨-, hmin, hmax⟩ := mem_apply_runtime_filters hmem
  rcases hc with hc | hc
  · rcases hm : m with _ | mv
    · exact hc hm
    · obtain ⟨rt, hrt, -⟩ := hmin mv hm
      rw [hr] at hrt; cases hrt
  · rcases hM : M with _ | Mv
    · exact hc hM
    · obtain ⟨rt, hrt, -⟩ := hmax Mv hM
      rw [hr] at hrt; cases hrt

/-- Witness for C6: a concrete row with missing runtime, under a configured
minimum runtime of 60 minutes. -/
theorem apply_runtime_filters_missing_runtime_witness :
    rowNoRuntime.runtimeMinutes = none ∧
      (apply_runtime_filters [rowNoRuntime] none none = [rowNoRuntime] ∧
        ((some 60 ≠ (none : Option Int) ∨ (none : Option Int) ≠ none) →
          rowNoRuntime ∉ apply_runtime_filters [rowNoRuntime] (some 60) none)) :=
  ⟨by decide,
    apply_runtime_filters_missing_runtime [rowNoRuntime] (some 60) none rowNoRuntime
      (by decide)⟩

/-- Claim C9: `filter_one_year` leaves both source tables unchanged.  The
statement-by-statement transcription `filter_one_year_exec`, whose write targets
follow the aliasing of the source (the merge on line 102 allocates the working
frame; every later write hits that frame or one of its copies), returns the table
store exactly as received, and its result is the pure pipeline's result. -/
theorem filter_one_year_exec_preserves_tables
    (st : Tables) (year mv : Int) (mr : ℚ) (tt : String) (inc exc : List String)
    (mrt Mrt : Option Int) (sb : String) (lim : Option Int) :
    (filter_one_year_exec st year mv mr tt inc exc mrt Mrt sb lim).2 = st ∧
      (filter_one_year_exec st year mv mr tt inc exc mrt Mrt sb lim).1 =
        filter_one_year st.basicsT st.ratingsT year mv mr tt inc exc mrt Mrt sb lim :=
  ⟨rfl, rfl⟩

/-- Claim C10, as amended: a configured cap of `0` applies no cap at all (Python
truthiness of `if limit_per_year:`), and any nonzero cap `n` returns `df.head(n)`:
the first `n` rows when `n` is positive, and all rows except the last `|n|` when
`n` is negative. -/
theorem filter_one_year_zero_cap_is_no_cap
    (basics : List TitleRow) (ratings : List RatingRow)
    (year mv : Int) (mr : ℚ) (tt : String) (inc exc : List String)
    (mrt Mrt : Option Int) (sb : String) (n : Int) :
    filter_one_year basics ratings year mv mr tt inc exc mrt Mrt sb (some 0) =
        filter_one_year basics ratings year mv mr tt inc exc mrt Mrt sb none ∧
      filter_one_year basics ratings year mv mr tt inc exc mrt Mrt sb (some n) =
        (if n = 0 then
          filter_one_year basics ratings year mv mr tt inc exc mrt Mrt sb none
        else if 0 ≤ n then
          (filter_one_year basics ratings year mv mr tt inc exc mrt Mrt sb none).take n.toNat
        else
          (filter_one_year basics ratings year mv mr tt inc exc mrt Mrt sb none).take
            ((filter_one_year basics ratings year mv mr tt inc exc mrt Mrt sb none).length -
              n.natAbs)) := by
  refine ⟨rfl, ?_⟩
  rw [filter_one_year_some_eq]
  rcases eq_or_ne n 0 with hn | hn
  · rw [if_pos hn, if_pos hn]
  · rw [if_neg hn, if_neg hn]
    unfold pdHead
    rfl

/-- Counterexample to C10 as stated: the negative cap `-1` is not strictly
positive, yet it changes the output — on a two-row Year Section it drops the last
row (`df.head(-1)`), so it is not true that only a strictly positive cap value
truncates the output. -/
theorem filter_one_year_negative_cap_truncates :
    filter_one_year sampleBasics sampleRatings 2010 0 0 "movie"
          [] [] none none "rating" (some (-1)) ≠
        filter_one_year sampleBasics sampleRatings 2010 0 0 "movie"
          [] [] none none "rating" none ∧
      (filter_one_year sampleBasics sampleRatings 2010 0 0 "movie"
          [] [] none none "rating" (some (-1))).length = 1 ∧
      (filter_one_year sampleBasics sampleRatings 2010 0 0 "movie"
          [] [] none none "rating" none).length = 2 := by
  refine ⟨?_, ?_, ?_⟩ <;> decide

/-- Claim C7: a row passes the include stage of `apply_genre_filters` exactly when
the include list is empty (no-op) or its genre string contains some configured
include genre as a case-insensitive substring (the escaped literal fragment), and
survives the exclude stage exactly when its genre string matches no configured
exclude genre; an empty exclude list is likewise a no-op. -/
theorem apply_genre_filters_match_iff
    (df : List MovieRow) (inc exc : List String) (r₀ : MovieRow) (h : r₀ ∈ df) :
    fillGenres r₀ ∈ apply_genre_filters df inc exc ↔
      ((inc = [] ∨ ∃ g ∈ inc, containsCI (r₀.genres.getD "") g = true) ∧
        (∀ g ∈ exc, containsCI (r₀.genres.getD "") g = false)) := by
  simp only [apply_genre_filters, build_genre_pattern]
  split_ifs with h1 h2 h3
  · simp only [List.mem_filter, List.mem_map_of_mem fillGenres h, true_and,
      fillGenres_genres_getD, Bool.not_eq_true', patternMatches_eq_true_iff,
      patternMatches_eq_false_iff, h1, ne_eq, not_false_iff, true_and]
  · rw [not_ne_iff] at h2
    subst h2
    simp only [List.mem_filter, List.mem_map_of_mem fillGenres h, true_and,
      fillGenres_genres_getD, Bool.not_eq_true', patternMatches_eq_false_iff, h1,
      ne_eq, not_false_iff, true_and]
    tauto
  · rw [not_ne_iff] at h1
    subst h1
    simp only [List.mem_filter, List.mem_map_of_mem fillGenres h, true_and,
      fillGenres_genres_getD, patternMatches_eq_true_iff, List.not_mem_nil,
      false_implies, implies_true, and_true]
  · rw [not_ne_iff] at h1 h3
    subst h1
    subst h3
    simp [List.mem_map_of_mem fillGenres h]

/-- Witness for C7: the sample row, whose genre string is `Drama,Comedy`, against
include list `["com"]` and exclude list `["horror"]`. -/
theorem apply_genre_filters_match_iff_witness :
    sampleRow ∈ [sampleRow] ∧
      (fillGenres sampleRow ∈ apply_genre_filters [sampleRow] ["com"] ["horror"] ↔
        ((["com"] = ([] : List String) ∨
            ∃ g ∈ ["com"], containsCI (sampleRow.genres.getD "") g = true) ∧
          (∀ g ∈ ["horror"], containsCI (sampleRow.genres.getD "") g = false))) :=
  ⟨by decide, apply_genre_filters_match_iff [sampleRow] ["com"] ["horror"] sampleRow (by decide)⟩

/-- Claim C8: the text renderer emits, for each year of the resolved range (which
is strictly ascending), a header line with the year, then one line per row of the
exact form stated in the spec built from the row's stored values, with a single
`(no titles)` line for an empty Year Section, and a blank separator line closing
every section. -/
theorem build_output_sections_shape
    (basics : List TitleRow) (ratings : List RatingRow)
    (s e mv : Int) (mr : ℚ) (tt : String) (inc exc : List String)
    (mrt Mrt : Option Int) (sb : String) (lim : Option Int) :
    List.Pairwise (· < ·) (rangeInt s e) ∧
      build_output basics ratings (rangeInt s e) mv mr tt inc exc mrt Mrt sb lim =
        (rangeInt s e).flatMap (fun y =>
          toString y ::
            (if filter_one_year basics ratings y mv mr tt inc exc mrt Mrt sb lim = [] then
              ["  (no titles)", ""]
            else
              (filter_one_year basics ratings y mv mr tt inc exc mrt Mrt sb lim).map
                  (fun r =>
                    "  " ++ r.primaryTitle ++
                      " (rating=" ++ pyFloatRepr r.averageRating ++
                      ", votes=" ++ toString r.numVotes ++
                      ", genres=" ++ pyOptStr r.genres ++
                      ", id=" ++ r.tconst ++ ")") ++ [""])) := by
  constructor
  · unfold rangeInt
    rw [List.pairwise_map]
    refine List.Pairwise.imp ?_ (List.pairwise_lt_range _)
    intro a b hab
    have hab2 : a < b := hab
    show s + (a : Int) < s + (b : Int)
    omega
  · unfold build_output
    refine congrArg (List.flatMap (rangeInt s e)) (funext fun y => ?_)
    cases hdf : filter_one_year basics ratings y mv mr tt inc exc mrt Mrt sb lim with
    | nil => rfl
    | cons a t => rfl
